import Mathlib

/-!
Verification development for the catalyst pack-schemas repository.

The repository ships a builder (`builder.py`), RAG configuration models
(`rag_models.py`) and a validation engine. The validation engine itself
(`validators.py` / `models.py`) is not part of the source tree available
here (only its tests and callers are), so those components are modelled
from the specification document; the modelled definitions say so in
their doc comments. The builder and RAG models are embedded directly
from the source.
-/

namespace Catalyst

/-! ## Data model (pack documents)

Modelled from the spec: §3 "Data Model" describes `PackDocument` with
`metadata`, `connection`, `tools`, `prompts`, `resources` and an optional
`structure` manifest; every field access during validation must tolerate
absence, so optional scalar fields are `Option String`. -/

/-- Modelled from the spec: §3 Metadata record (name, version, description,
vendor, license, domain, pricing_tier, tags); only the fields the
validation rules read are semantically relevant. -/
structure Metadata where
  name : Option String := none
  version : Option String := none
  description : Option String := none
  vendor : Option String := none
  license : Option String := none
  domain : Option String := none
  pricing_tier : Option String := none
  tags : List String := []
deriving Repr, DecidableEq

/-- Modelled from the spec: §3 auth carries a `method` and an opaque config
mapping that is not strictly validated beyond presence. -/
structure AuthSpec where
  method : String
  config : List (String × String) := []
deriving Repr, DecidableEq

/-- Modelled from the spec: §3 ConnectionSpec, a variant tagged by `type`
with type-specific required fields and shared optional fields. -/
structure Connection where
  type : String
  timeout : Option Int := none
  base_url : Option String := none
  engine : Option String := none
  host : Option String := none
  hostname : Option String := none
  username : Option String := none
  auth : Option AuthSpec := none
deriving Repr, DecidableEq

/-- Modelled from the spec: §3 ParameterSpec of a tool. -/
structure ParameterSpec where
  name : Option String := none
  type : Option String := none
  required : Bool := false
  description : Option String := none
deriving Repr, DecidableEq

/-- Modelled from the spec: §3 ToolSpec; `type` is optional (defaulted when
absent, never an error), `description` is required by rule. -/
structure ToolSpec where
  type : Option String := none
  description : Option String := none
  endpoint : Option String := none
  method : Option String := none
  sql : Option String := none
  command : Option String := none
  parameters : List ParameterSpec := []
deriving Repr, DecidableEq

/-- Modelled from the spec: §3 PromptSpec; `template` is required by rule.
The optional `variables` list is named `vars` because `variables` is a
Lean keyword. -/
structure PromptSpec where
  name : Option String := none
  description : Option String := none
  template : Option String := none
  vars : List String := []
deriving Repr, DecidableEq

/-- Modelled from the spec: §3 ResourceSpec; `url` is required by rule. -/
structure ResourceSpec where
  name : Option String := none
  type : Option String := none
  description : Option String := none
  url : Option String := none
deriving Repr, DecidableEq

/-- Modelled from the spec: §3 the optional modular `structure` manifest,
a mapping of section name to an ordered list of relative file paths. -/
structure StructureManifest where
  tools : List String := []
  prompts : List String := []
  resources : List String := []
deriving Repr, DecidableEq

/-- Modelled from the spec: §3 PackDocument. The `structure` section is
named `struct` because `structure` is a Lean keyword. -/
structure Pack where
  metadata : Metadata
  connection : Connection
  tools : List (String × ToolSpec) := []
  prompts : List (String × PromptSpec) := []
  resources : List (String × ResourceSpec) := []
  struct : Option StructureManifest := none
deriving Repr, DecidableEq

/-- A string field counts as given when it is present and non-empty
(the spec §6 treats placeholder strings as opaque non-empty values). -/
def present : Option String → Bool
  | none => false
  | some s => !s.isEmpty

/-! ## Single-pack validator

Modelled from the spec: §4.2 rule catalogue, evaluated in document order
metadata → connection → tools → prompts → resources. -/

/-- Modelled from the spec: §3 the enumerated pricing tiers. -/
def pricingTiers : List String := ["free", "basic", "premium", "enterprise"]

/-- Modelled from the spec: §3/§4.2 known connection types (`rest`,
`database`, `ssh` plus the extensible values the in-repo builder uses). -/
def connectionTypes : List String :=
  ["rest", "database", "ssh", "filesystem", "message_queue"]

/-- Split a character list on the dot character. -/
def splitOnDot : List Char → List (List Char)
  | [] => [[]]
  | c :: rest =>
      if c = '.' then [] :: splitOnDot rest
      else
        match splitOnDot rest with
        | [] => [[c]]
        | p :: ps => (c :: p) :: ps

/-- Modelled from the spec: §4.2 "three-dot-separated numeric pattern"
for versions: exactly three dot-separated non-empty numeric components. -/
def isSemverLike (v : String) : Bool :=
  let parts := splitOnDot v.data
  parts.length == 3 && parts.all (fun p => !p.isEmpty && p.all Char.isDigit)

/-- Modelled from the spec: §4.2 metadata error rules. -/
def metadataErrors (m : Metadata) : List String :=
  (if present m.name then [] else ["metadata.name is required"]) ++
  (if present m.vendor then [] else ["metadata.vendor is required"]) ++
  (match m.pricing_tier with
   | none => []
   | some t => if pricingTiers.contains t then [] else ["Invalid pricing_tier: " ++ t])

/-- Modelled from the spec: §4.2 the advisory version-format warning. -/
def metadataWarnings (m : Metadata) : List String :=
  match m.version with
  | none => []
  | some v =>
      if isSemverLike v then []
      else ["metadata.version should follow semantic versioning (e.g. 1.0.0)"]

/-- Modelled from the spec: §4.2 connection error rules. -/
def connectionErrors (c : Connection) : List String :=
  (if connectionTypes.contains c.type then []
   else ["Invalid connection.type: " ++ c.type]) ++
  (match c.timeout with
   | none => []
   | some t => if t ≤ 0 then ["connection.timeout must be positive"] else []) ++
  (if c.type == "rest" && !present c.base_url then
     ["connection.base_url is required for REST connections"] else []) ++
  (if c.type == "database" then
     (if present c.engine then [] else ["connection.engine is required for database connections"]) ++
     (if present c.host then [] else ["connection.host is required for database connections"])
   else []) ++
  (if c.type == "ssh" then
     (if present c.hostname then [] else ["connection.hostname is required for SSH connections"]) ++
     (if present c.username then [] else ["connection.username is required for SSH connections"])
   else [])

/-- Modelled from the spec: §4.2 the "pack has no declared tools" error text
(the spec fixes the semantics, not the exact wording). -/
def noToolsError : String :=
  "Pack must define at least one tool (inline or via structure)"

/-- The `structure.tools` manifest entries of a pack (empty when the
`structure` section is absent). -/
def structureTools (p : Pack) : List String :=
  match p.struct with
  | none => []
  | some s => s.tools

/-- Modelled from the spec: §4.2 per-tool rule — `description` required,
missing `type` is NOT an error (a default is substituted silently). -/
def toolEntryErrors (name : String) (t : ToolSpec) : List String :=
  if present t.description then [] else ["Tool " ++ name ++ ": description is required"]

/-- Modelled from the spec: §4.2 tools-presence rule (inline OR structure
manifest) followed by the per-tool rules. -/
def toolsErrors (tools : List (String × ToolSpec)) (manifest : List String) : List String :=
  (if tools.isEmpty && manifest.isEmpty then [noToolsError] else []) ++
  tools.flatMap (fun nt => toolEntryErrors nt.1 nt.2)

/-- Modelled from the spec: §4.2 per-prompt rule — `template` required. -/
def promptEntryErrors (name : String) (pr : PromptSpec) : List String :=
  if present pr.template then [] else ["Prompt " ++ name ++ ": template is required"]

/-- Modelled from the spec: §4.2 per-resource rule — `url` required. -/
def resourceEntryErrors (name : String) (r : ResourceSpec) : List String :=
  if present r.url then [] else ["Resource " ++ name ++ ": url is required"]

/-- Modelled from the spec: §4.2 all error rules in document order. -/
def packErrors (p : Pack) : List String :=
  metadataErrors p.metadata ++
  connectionErrors p.connection ++
  toolsErrors p.tools (structureTools p) ++
  p.prompts.flatMap (fun np => promptEntryErrors np.1 np.2) ++
  p.resources.flatMap (fun nr => resourceEntryErrors nr.1 nr.2)

/-- Modelled from the spec: §4.2 all warning rules (only the version rule
produces warnings). -/
def packWarnings (p : Pack) : List String :=
  metadataWarnings p.metadata

/-- Modelled from the spec: §4.2 the validator instance carrying the
accumulated error and warning lists. -/
structure PackValidator where
  errors : List String := []
  warnings : List String := []
deriving Repr, DecidableEq

/-- Modelled from the spec: §4.2/§9 `validate_pack` — each run starts from
an empty accumulator (prior instance state is discarded), populates the
instance lists and returns `len(errors) == 0`. -/
def PackValidator.validate_pack (_v : PackValidator) (p : Pack) :
    Bool × PackValidator :=
  let es := packErrors p
  let ws := packWarnings p
  (es.isEmpty, { errors := es, warnings := ws })

/-- Modelled from the spec: §4.2/§6 the normalized report record — exactly
the fields valid / errors / warnings / error_count / warning_count. -/
structure ValidationReport where
  valid : Bool
  errors : List String
  warnings : List String
  error_count : Nat
  warning_count : Nat
deriving Repr, DecidableEq

/-- Modelled from the spec: §4.2 `get_validation_report`, a snapshot of the
instance state. -/
def PackValidator.get_validation_report (v : PackValidator) : ValidationReport :=
  { valid := v.errors.isEmpty
    errors := v.errors
    warnings := v.warnings
    error_count := v.errors.length
    warning_count := v.warnings.length }

/-! ## Validation entry points

Modelled from the spec: §4.4. File reading and text parsing are abstracted
as a lookup `fs : String → Option (Except String Pack)`: `none` is a read
failure (e.g. nonexistent path), `some (.error c)` a parse failure with
cause `c`, `some (.ok p)` a successfully parsed document. -/

/-- The report produced by running the rule-based validator on a parsed
pack (a fresh validator instance, then `get_validation_report`). -/
def reportOfPack (p : Pack) : ValidationReport :=
  ((PackValidator.mk [] []).validate_pack p).2.get_validation_report

/-- Modelled from the spec: §4.4/§7 the normalized report for a document
that could not be read or parsed from a file. -/
def failedLoadReport (cause : String) : ValidationReport :=
  { valid := false
    errors := ["Failed to load pack: " ++ cause]
    warnings := []
    error_count := 1
    warning_count := 0 }

/-- Modelled from the spec: §4.4 `validate_pack_document` (named
`validate_pack_yaml` in the repository's public API): read and parse the
file at `path`, normalizing read/parse failures into a report instead of
raising. -/
def validate_pack_yaml (fs : String → Option (Except String Pack))
    (path : String) : ValidationReport :=
  match fs path with
  | none => failedLoadReport ("No such file or directory: " ++ path)
  | some (Except.error cause) => failedLoadReport cause
  | some (Except.ok p) => reportOfPack p

/-- Modelled from the spec: §4.1 the raw in-memory tree handed to
`validate_pack_tree`; top-level sections may be absent. -/
structure RawPack where
  metadata : Option Metadata := none
  connection : Option Connection := none
  tools : List (String × ToolSpec) := []
  prompts : List (String × PromptSpec) := []
  resources : List (String × ResourceSpec) := []
  struct : Option StructureManifest := none
deriving Repr, DecidableEq

/-- Modelled from the spec: §4.1 `parse(tree)` fails when required
substructures (`metadata`, `connection`) are absent entirely; otherwise it
performs lenient structural extraction with defaults. -/
def parsePack (r : RawPack) : Except String Pack :=
  match r.metadata, r.connection with
  | none, _ => Except.error "missing required section: metadata"
  | some _, none => Except.error "missing required section: connection"
  | some m, some c =>
      Except.ok { metadata := m, connection := c, tools := r.tools,
                  prompts := r.prompts, resources := r.resources,
                  struct := r.struct }

/-- Modelled from the spec: §4.4 `validate_pack_tree` (named
`validate_pack_dict` in the repository's public API): validate an
in-memory tree, normalizing structural parse failures into a report. -/
def validate_pack_dict (r : RawPack) : ValidationReport :=
  match parsePack r with
  | Except.error cause =>
      { valid := false
        errors := ["Failed to parse pack: " ++ cause]
        warnings := []
        error_count := 1
        warning_count := 0 }
  | Except.ok p => reportOfPack p

/-! ## Collection validator

Modelled from the spec: §4.3. Discovery under the root directory is a
policy detail; a discovered pack directory is its name plus the outcome
of reading/parsing its `pack.yaml` (`none` when the file is absent). -/

/-- Modelled from the spec: §4.3 a discovered pack directory. -/
structure PackDir where
  name : String
  packYaml : Option (Except String Pack)

/-- Modelled from the spec: §4.3 the collection validator holds the root
directory and the pack directories discovered under it. -/
structure PackCollectionValidator where
  base_dir : String
  packs : List PackDir := []

/-- Modelled from the spec: §4.3 the forced report for a pack directory
that lacks the document file (no parse is attempted). -/
def missingPackYamlReport : ValidationReport :=
  { valid := false
    errors := ["pack.yaml file not found"]
    warnings := []
    error_count := 1
    warning_count := 0 }

/-- Modelled from the spec: §4.3 `validate_all_packs`: every discovered
pack yields one keyed report; a missing document file is forced to the
"pack.yaml file not found" report, an unreadable/corrupt one degrades to
a normalized failure report, and scanning always continues. -/
def validate_all_packs (v : PackCollectionValidator) :
    List (String × ValidationReport) :=
  v.packs.map fun d =>
    (d.name,
      match d.packYaml with
      | none => missingPackYamlReport
      | some (Except.error cause) => failedLoadReport cause
      | some (Except.ok p) => reportOfPack p)

/-- Modelled from the spec: §4.3 the summary record. -/
structure ValidationSummary where
  total_packs : Nat
  valid_packs : Nat
  invalid_packs : Nat
  total_errors : Nat
  total_warnings : Nat
  validation_rate : Rat
deriving Repr, DecidableEq

/-- Modelled from the spec: §4.3 `get_validation_summary`; the
`validation_rate` division is guarded, reported as 0 when
`total_packs == 0`. -/
def get_validation_summary (v : PackCollectionValidator) : ValidationSummary :=
  let results := validate_all_packs v
  let total := results.length
  let valid := (results.filter (fun r => r.2.valid)).length
  { total_packs := total
    valid_packs := valid
    invalid_packs := total - valid
    total_errors := (results.map (fun r => r.2.error_count)).sum
    total_warnings := (results.map (fun r => r.2.warning_count)).sum
    validation_rate := if total = 0 then 0 else (valid : Rat) / (total : Rat) }

/-! ## Pack builder (embedded from `catalyst_pack_schemas/builder.py`) -/

/-- A Python value as it occurs in the builder's `_pack_dict`: strings,
integers, nested dicts (ordered key/value lists) and lists. -/
inductive PyVal where
  | str : String → PyVal
  | int : Int → PyVal
  | dict : List (String × PyVal) → PyVal
  | list : List PyVal → PyVal

/-- A Python dict with string keys, as an ordered association list. -/
abbrev PyDict := List (String × PyVal)

/-- Python dict assignment `d[k] = v`: overwrite in place when the key
exists, append otherwise. -/
def dictSet : PyDict → String → PyVal → PyDict
  | [], k, v => [(k, v)]
  | (k', v') :: rest, k, v =>
      if k' = k then (k, v) :: rest else (k', v') :: dictSet rest k v

/-- Python truthiness of an optional string argument (`None` and `""` are
falsy). -/
def strTruthy : Option String → Bool
  | none => false
  | some s => !s.isEmpty

/-- Python `a or b` on optional string arguments. -/
def pyOr (a b : Option String) : Option String :=
  if strTruthy a then a else b

/-- The builder's `_pack_dict` state: the five top-level sections set by
`PackBuilder.__init__` (`builder.py` lines 17-33). -/
structure PackBuilder where
  name : String
  version : String
  metadata : PyDict
  connection : PyDict
  tools : PyDict
  prompts : PyDict
  resources : PyDict

/-- Embeds `PackBuilder.__init__` (`builder.py` lines 14-33). -/
def PackBuilder.init (name : String) (version : String) : PackBuilder :=
  { name := name
    version := version
    metadata :=
      [("name", PyVal.str name), ("version", PyVal.str version),
       ("description", PyVal.str (name ++ " integration pack")),
       ("author", PyVal.str "Pack Author"), ("license", PyVal.str "MIT"),
       ("compatibility", PyVal.str "2.0.0"), ("domain", PyVal.str "general"),
       ("vendor", PyVal.str "Community"), ("tags", PyVal.list [])]
    connection := [("type", PyVal.str "rest")]
    tools := []
    prompts := []
    resources := [] }

/-- Embeds `PackBuilder.set_connection` (`builder.py` lines 46-54):
`conn_type = type or connection_type`; a falsy result raises `ValueError`
before any mutation, otherwise the connection dict is replaced wholesale by
`{"type": conn_type, **kwargs}` (`type`/`connection_type` are named
parameters, so `kwargs` cannot contain those keys). -/
def PackBuilder.set_connection (b : PackBuilder) (type : Option String)
    (connection_type : Option String) (kwargs : PyDict) :
    Except String PackBuilder :=
  let conn_type := pyOr type connection_type
  if strTruthy conn_type then
    Except.ok { b with
      connection := ("type", PyVal.str (conn_type.getD "")) :: kwargs }
  else
    Except.error "Either 'type' or 'connection_type' must be specified"

/-- Embeds `PackBuilder.set_auth` (`builder.py` lines 56-65): sets
`connection["auth"] = {"method": method, "config": kwargs}`. (The source's
`if "connection" not in self._pack_dict` guard is unreachable here: in this
state model the connection dict always exists, as `__init__` and every
connection-writing method assign it.) -/
def PackBuilder.set_auth (b : PackBuilder) (method : String)
    (kwargs : PyDict) : PackBuilder :=
  { b with
    connection := dictSet b.connection "auth"
      (PyVal.dict [("method", PyVal.str method),
                   ("config", PyVal.dict kwargs)]) }

/-! ## RAG models (embedded from `catalyst_pack_schemas/rag_models.py`)

Python `float` fields are only carried through serialization, never
computed with, so they are represented as exact rationals. -/

/-- Embeds the `RAGProvider` enum (`rag_models.py` lines 12-19). -/
inductive RAGProvider where
  | qdrant
deriving Repr, DecidableEq

/-- The `.value` string of a `RAGProvider` member. -/
def RAGProvider.value : RAGProvider → String
  | qdrant => "qdrant"

/-- Embeds the `RAGProvider(s)` enum lookup by value; `none` models the `ValueError`
on an unknown value. -/
def RAGProvider.ofValue (s : String) : Option RAGProvider :=
  if s = "qdrant" then some RAGProvider.qdrant else none

/-- Embeds the `VectorDistanceMetric` enum (`rag_models.py` lines 22-27). -/
inductive VectorDistanceMetric where
  | cosine
  | dot
  | euclidean
deriving Repr, DecidableEq

/-- The `.value` string of a `VectorDistanceMetric` member. -/
def VectorDistanceMetric.value : VectorDistanceMetric → String
  | cosine => "cosine"
  | dot => "dot"
  | euclidean => "euclidean"

/-- Embeds the `VectorDistanceMetric(s)` enum lookup by value; `none` models the
`ValueError` on an unknown value. -/
def VectorDistanceMetric.ofValue (s : String) : Option VectorDistanceMetric :=
  if s = "cosine" then some VectorDistanceMetric.cosine
  else if s = "dot" then some VectorDistanceMetric.dot
  else if s = "euclidean" then some VectorDistanceMetric.euclidean
  else none

/-- Embeds the `QdrantConfig` dataclass (`rag_models.py` lines 30-96). -/
structure QdrantConfig where
  qdrant_url : String := "http://localhost:6333"
  qdrant_api_key : Option String := none
  collection_name : String := "documents"
  colpali_model : String := "vidore/colpali-v1.2"
  colpali_device : String := "cuda"
  enable_quantization : Bool := true
  enable_two_stage_retrieval : Bool := true
  vector_size : Int := 128
  distance_metric : VectorDistanceMetric := VectorDistanceMetric.cosine
  batch_size : Int := 32
  max_retries : Int := 3
  timeout_seconds : Int := 60
  on_disk_payload : Bool := false
deriving Repr, DecidableEq

/-- The dictionary produced by `QdrantConfig.to_dict` (all thirteen keys
always present; `distance_metric` serialized to its value string). -/
structure QdrantDict where
  qdrant_url : String
  qdrant_api_key : Option String
  collection_name : String
  colpali_model : String
  colpali_device : String
  enable_quantization : Bool
  enable_two_stage_retrieval : Bool
  vector_size : Int
  distance_metric : String
  batch_size : Int
  max_retries : Int
  timeout_seconds : Int
  on_disk_payload : Bool
deriving Repr, DecidableEq

/-- Embeds `QdrantConfig.to_dict` (`rag_models.py` lines 98-114). -/
def QdrantConfig.to_dict (c : QdrantConfig) : QdrantDict :=
  { qdrant_url := c.qdrant_url
    qdrant_api_key := c.qdrant_api_key
    collection_name := c.collection_name
    colpali_model := c.colpali_model
    colpali_device := c.colpali_device
    enable_quantization := c.enable_quantization
    enable_two_stage_retrieval := c.enable_two_stage_retrieval
    vector_size := c.vector_size
    distance_metric := c.distance_metric.value
    batch_size := c.batch_size
    max_retries := c.max_retries
    timeout_seconds := c.timeout_seconds
    on_disk_payload := c.on_disk_payload }

/-- Embeds `QdrantConfig.from_dict` (`rag_models.py` lines 116-121): the
`distance_metric` string is converted back through the enum (`none` models
the `ValueError` on an unknown metric string). -/
def QdrantConfig.from_dict (d : QdrantDict) : Option QdrantConfig :=
  match VectorDistanceMetric.ofValue d.distance_metric with
  | none => none
  | some m =>
      some { qdrant_url := d.qdrant_url
             qdrant_api_key := d.qdrant_api_key
             collection_name := d.collection_name
             colpali_model := d.colpali_model
             colpali_device := d.colpali_device
             enable_quantization := d.enable_quantization
             enable_two_stage_retrieval := d.enable_two_stage_retrieval
             vector_size := d.vector_size
             distance_metric := m
             batch_size := d.batch_size
             max_retries := d.max_retries
             timeout_seconds := d.timeout_seconds
             on_disk_payload := d.on_disk_payload }

/-- Embeds the `RAGConfiguration` dataclass (`rag_models.py` lines 124-190). The
`access_level` field is a plain string at runtime (its `Literal` annotation
is not enforced or converted by `to_dict`/`from_dict`). -/
structure RAGConfiguration where
  enabled : Bool := false
  provider : RAGProvider := RAGProvider.qdrant
  qdrant_config : Option QdrantConfig := none
  supported_formats : List String := ["pdf", "png", "jpg", "jpeg"]
  auto_index : Bool := false
  chunk_size : Int := 1000
  chunk_overlap : Int := 200
  default_top_k : Int := 5
  score_threshold : Rat := 7/10
  enable_cost_tracking : Bool := true
  monthly_budget_usd : Option Rat := none
  access_level : String := "global"
deriving Repr, DecidableEq

/-- The dictionary produced by `RAGConfiguration.to_dict`: ten keys always
present, plus `qdrant_config` and `monthly_budget_usd` only when set
(modelled as `Option`, `none` meaning the key is omitted). -/
structure RagDict where
  enabled : Bool
  provider : String
  supported_formats : List String
  auto_index : Bool
  chunk_size : Int
  chunk_overlap : Int
  default_top_k : Int
  score_threshold : Rat
  enable_cost_tracking : Bool
  access_level : String
  qdrant_config : Option QdrantDict := none
  monthly_budget_usd : Option Rat := none
deriving Repr, DecidableEq

/-- Embeds `RAGConfiguration.to_dict` (`rag_models.py` lines 192-213):
`qdrant_config` is included only when truthy (a dataclass instance is
always truthy, so: only when not `None`), `monthly_budget_usd` only when
not `None`. -/
def RAGConfiguration.to_dict (c : RAGConfiguration) : RagDict :=
  { enabled := c.enabled
    provider := c.provider.value
    supported_formats := c.supported_formats
    auto_index := c.auto_index
    chunk_size := c.chunk_size
    chunk_overlap := c.chunk_overlap
    default_top_k := c.default_top_k
    score_threshold := c.score_threshold
    enable_cost_tracking := c.enable_cost_tracking
    access_level := c.access_level
    qdrant_config := c.qdrant_config.map QdrantConfig.to_dict
    monthly_budget_usd := c.monthly_budget_usd }

/-- Embeds `RAGConfiguration.from_dict` (`rag_models.py` lines 215-226): the
`provider` string goes back through the enum, a present (and, being a full
record, truthy) `qdrant_config` is parsed with `QdrantConfig.from_dict`,
and absent optional keys fall back to the dataclass defaults (`None`). -/
def RAGConfiguration.from_dict (d : RagDict) : Option RAGConfiguration :=
  match RAGProvider.ofValue d.provider with
  | none => none
  | some prov =>
      match d.qdrant_config with
      | none =>
          some { enabled := d.enabled, provider := prov,
                 qdrant_config := none,
                 supported_formats := d.supported_formats,
                 auto_index := d.auto_index, chunk_size := d.chunk_size,
                 chunk_overlap := d.chunk_overlap,
                 default_top_k := d.default_top_k,
                 score_threshold := d.score_threshold,
                 enable_cost_tracking := d.enable_cost_tracking,
                 monthly_budget_usd := d.monthly_budget_usd,
                 access_level := d.access_level }
      | some qd =>
          match QdrantConfig.from_dict qd with
          | none => none
          | some qc =>
              some { enabled := d.enabled, provider := prov,
                     qdrant_config := some qc,
                     supported_formats := d.supported_formats,
                     auto_index := d.auto_index, chunk_size := d.chunk_size,
                     chunk_overlap := d.chunk_overlap,
                     default_top_k := d.default_top_k,
                     score_threshold := d.score_threshold,
                     enable_cost_tracking := d.enable_cost_tracking,
                     monthly_budget_usd := d.monthly_budget_usd,
                     access_level := d.access_level }

/-! ## Helper operations used in the stated properties -/

/-- Whether `s` starts with `pre` (on the underlying character lists). -/
def strStartsWith (s pre : String) : Bool :=
  pre.data.isPrefixOf s.data

/-- Whether `pat` occurs as a prefix of some suffix of `l`. -/
def infixAt (pat : List Char) : List Char → Bool
  | [] => pat.isPrefixOf []
  | c :: tl => pat.isPrefixOf (c :: tl) || infixAt pat tl

/-- Whether `pat` occurs as a contiguous substring of `s` (on the underlying
character lists). -/
def strContainsSub (s pat : String) : Bool :=
  infixAt pat.data s.data

/-- Remove the `type` field of the tool at position `i` (identity when `i`
is out of range). -/
def setToolTypeNone : List (String × ToolSpec) → Nat → List (String × ToolSpec)
  | [], _ => []
  | (n, t) :: rest, 0 => (n, { t with type := none }) :: rest
  | x :: rest, Nat.succ i => x :: setToolTypeNone rest i

/-- The pack with the `type` field of its `i`-th tool removed. -/
def removeToolTypeAt (p : Pack) (i : Nat) : Pack :=
  { p with tools := setToolTypeNone p.tools i }

/-- The pack with `metadata.version` set to `v`. -/
def setVersion (p : Pack) (v : Option String) : Pack :=
  { p with metadata := { p.metadata with version := v } }

/-- A concrete well-formed pack document (mirrors the test suite's
`sample_pack_data` fixture). -/
def samplePack : Pack :=
  { metadata :=
      { name := some "test_pack", version := some "1.0.0",
        description := some "Test pack for unit testing",
        vendor := some "Test Vendor", license := some "MIT",
        domain := some "testing", pricing_tier := some "free",
        tags := ["test", "example"] }
    connection :=
      { type := "rest", timeout := some 30,
        base_url := some "${API_BASE_URL}",
        auth := some { method := "bearer" } }
    tools :=
      [("test_tool",
        { type := some "list", description := some "Test tool for validation",
          endpoint := some "/api/test", method := some "GET",
          parameters := [{ name := some "limit", type := some "integer" }] })]
    prompts :=
      [("test_prompt",
        { name := some "Test Prompt", description := some "Test prompt template",
          template := some "You are a test assistant." })]
    resources :=
      [("test_docs",
        { name := some "Test Documentation", type := some "documentation",
          description := some "Test API documentation",
          url := some "https://docs.test.com" })] }

/-! ## General lemmas about the embedded operations -/

theorem isPrefixOf_append_ext (l1 l2 l3 : List Char)
    (h : l1.isPrefixOf l2 = true) : l1.isPrefixOf (l2 ++ l3) = true := by
  induction l1 generalizing l2 with
  | nil => simp [List.isPrefixOf]
  | cons a as ih =>
      cases l2 with
      | nil => simp [List.isPrefixOf] at h
      | cons b bs =>
          simp only [List.cons_append, List.isPrefixOf, Bool.and_eq_true] at h ⊢
          exact ⟨h.1, ih _ h.2⟩

theorem ne_target_of_prefix2 (pre t target : String)
    (hlen : 2 ≤ pre.data.length)
    (hne : pre.data.take 2 ≠ target.data.take 2) : pre ++ t ≠ target := by
  intro heq
  have h2 := congrArg (fun s => s.data.take 2) heq
  simp only at h2
  rw [String.data_append, List.take_append_of_le_length hlen] at h2
  exact hne h2

theorem ne_target_of_prefix2two (pre n suf target : String)
    (hlen : 2 ≤ pre.data.length)
    (hne : pre.data.take 2 ≠ target.data.take 2) : pre ++ n ++ suf ≠ target := by
  intro heq
  have h2 := congrArg (fun s => s.data.take 2) heq
  simp only at h2
  rw [String.data_append, String.data_append, List.append_assoc,
      List.take_append_of_le_length hlen] at h2
  exact hne h2

theorem noTools_not_mem_metadata (m : Metadata) :
    noToolsError ∉ metadataErrors m := by
  intro h
  simp only [metadataErrors, List.mem_append] at h
  rcases h with (h | h) | h
  · split at h
    · exact absurd h (List.not_mem_nil _)
    · exact absurd (List.mem_singleton.mp h) (by decide)
  · split at h
    · exact absurd h (List.not_mem_nil _)
    · exact absurd (List.mem_singleton.mp h) (by decide)
  · split at h
    · exact absurd h (List.not_mem_nil _)
    · split at h
      · exact absurd h (List.not_mem_nil _)
      · have heq := List.mem_singleton.mp h
        exact ne_target_of_prefix2 "Invalid pricing_tier: " _ noToolsError
          (by decide) (by decide) heq.symm

theorem noTools_not_mem_connection (c : Connection) :
    noToolsError ∉ connectionErrors c := by
  intro h
  simp only [connectionErrors, List.mem_append] at h
  rcases h with (((h | h) | h) | h) | h
  · split at h
    · exact absurd h (List.not_mem_nil _)
    · have heq := List.mem_singleton.mp h
      exact ne_target_of_prefix2 "Invalid connection.type: " c.type noToolsError
        (by decide) (by decide) heq.symm
  · split at h
    · exact absurd h (List.not_mem_nil _)
    · split at h
      · exact absurd (List.mem_singleton.mp h) (by decide)
      · exact absurd h (List.not_mem_nil _)
  · split at h
    · exact absurd (List.mem_singleton.mp h) (by decide)
    · exact absurd h (List.not_mem_nil _)
  · split at h
    · rcases List.mem_append.mp h with h1 | h1 <;> split at h1
      · exact absurd h1 (List.not_mem_nil _)
      · exact absurd (List.mem_singleton.mp h1) (by decide)
      · exact absurd h1 (List.not_mem_nil _)
      · exact absurd (List.mem_singleton.mp h1) (by decide)
    · exact absurd h (List.not_mem_nil _)
  · split at h
    · rcases List.mem_append.mp h with h1 | h1 <;> split at h1
      · exact absurd h1 (List.not_mem_nil _)
      · exact absurd (List.mem_singleton.mp h1) (by decide)
      · exact absurd h1 (List.not_mem_nil _)
      · exact absurd (List.mem_singleton.mp h1) (by decide)
    · exact absurd h (List.not_mem_nil _)

theorem noTools_not_mem_toolEntry (n : String) (t : ToolSpec) :
    noToolsError ∉ toolEntryErrors n t := by
  intro h
  unfold toolEntryErrors at h
  split at h
  · exact absurd h (List.not_mem_nil _)
  · have heq := List.mem_singleton.mp h
    exact ne_target_of_prefix2two "Tool " n ": description is required"
      noToolsError (by decide) (by decide) heq.symm

theorem noTools_not_mem_promptEntry (n : String) (pr : PromptSpec) :
    noToolsError ∉ promptEntryErrors n pr := by
  intro h
  unfold promptEntryErrors at h
  split at h
  · exact absurd h (List.not_mem_nil _)
  · have heq := List.mem_singleton.mp h
    exact ne_target_of_prefix2two "Prompt " n ": template is required"
      noToolsError (by decide) (by decide) heq.symm

theorem noTools_not_mem_resourceEntry (n : String) (r : ResourceSpec) :
    noToolsError ∉ resourceEntryErrors n r := by
  intro h
  unfold resourceEntryErrors at h
  split at h
  · exact absurd h (List.not_mem_nil _)
  · have heq := List.mem_singleton.mp h
    exact ne_target_of_prefix2two "Resource " n ": url is required"
      noToolsError (by decide) (by decide) heq.symm

theorem setToolTypeNone_isEmpty (ts : List (String × ToolSpec)) (i : Nat) :
    (setToolTypeNone ts i).isEmpty = ts.isEmpty := by
  cases ts with
  | nil => cases i <;> rfl
  | cons hd tl =>
      obtain ⟨n, t⟩ := hd
      cases i <;> rfl

theorem flatMap_setToolTypeNone (ts : List (String × ToolSpec)) (i : Nat) :
    (setToolTypeNone ts i).flatMap (fun nt => toolEntryErrors nt.1 nt.2) =
      ts.flatMap (fun nt => toolEntryErrors nt.1 nt.2) := by
  induction ts generalizing i with
  | nil => cases i <;> rfl
  | cons hd tl ih =>
      obtain ⟨n, t⟩ := hd
      cases i with
      | zero => cases t; rfl
      | succ j =>
          simp only [setToolTypeNone, List.flatMap_cons, ih]

theorem toolsErrors_setToolTypeNone (ts : List (String × ToolSpec))
    (manifest : List String) (i : Nat) :
    toolsErrors (setToolTypeNone ts i) manifest = toolsErrors ts manifest := by
  unfold toolsErrors
  rw [setToolTypeNone_isEmpty, flatMap_setToolTypeNone]

theorem packErrors_removeToolTypeAt (p : Pack) (i : Nat) :
    packErrors (removeToolTypeAt p i) = packErrors p := by
  cases p with
  | mk md cn ts pr rs st =>
      simp only [removeToolTypeAt, packErrors, structureTools]
      rw [toolsErrors_setToolTypeNone]

theorem packWarnings_removeToolTypeAt (p : Pack) (i : Nat) :
    packWarnings (removeToolTypeAt p i) = packWarnings p := rfl

theorem packErrors_setVersion (p : Pack) (v : Option String) :
    packErrors (setVersion p v) = packErrors p := by
  cases p with
  | mk md cn ts pr rs st => cases md; rfl

/-- The number of accumulated warnings that contain the phrase
"semantic versioning". -/
def semverWarningCount (p : Pack) : Nat :=
  ((packWarnings p).filter (fun w => strContainsSub w "semantic versioning")).length

theorem startsWith_failed_load (cause : String) :
    strStartsWith ("Failed to load pack: " ++ cause) "Failed to load pack:" = true := by
  unfold strStartsWith
  rw [String.data_append]
  exact isPrefixOf_append_ext _ _ _ (by decide)

theorem startsWith_failed_parse (cause : String) :
    strStartsWith ("Failed to parse pack: " ++ cause) "Failed to parse pack:" = true := by
  unfold strStartsWith
  rw [String.data_append]
  exact isPrefixOf_append_ext _ _ _ (by decide)

/-- A one-pack collection whose pack directory has no `pack.yaml` file. -/
def collectionWithMissing : PackCollectionValidator :=
  { base_dir := "packs", packs := [{ name := "missing_pack", packYaml := none }] }

/-! ## Claim theorems -/

/-- C1: `validate_pack` returns true exactly when the accumulated error list
is empty (the result is determined by the errors alone, warnings never
affect it), and `get_validation_report` returns a record with exactly the
fields valid / errors / warnings / error_count / warning_count, where
`valid` equals "errors is empty", `error_count` is the length of `errors`
and `warning_count` is the length of `warnings`. -/
theorem validate_pack_and_report_contract (v : PackValidator) (p : Pack) :
    (((v.validate_pack p).1 = true) ↔ (v.validate_pack p).2.errors = []) ∧
    (v.validate_pack p).1 = (packErrors p).isEmpty ∧
    ∀ w : PackValidator,
      (w.get_validation_report.valid = true ↔ w.errors = []) ∧
      w.get_validation_report.errors = w.errors ∧
      w.get_validation_report.warnings = w.warnings ∧
      w.get_validation_report.error_count = w.errors.length ∧
      w.get_validation_report.warning_count = w.warnings.length := by
  refine ⟨List.isEmpty_iff, rfl, fun w => ⟨List.isEmpty_iff, rfl, rfl, rfl, rfl⟩⟩

theorem validate_pack_and_report_contract_witness :
    ((PackValidator.mk [] []).validate_pack samplePack).2.errors = [] :=
  (validate_pack_and_report_contract (PackValidator.mk [] []) samplePack).1.mp
    (by decide)

/-- C2: the "no declared tools" error is appended exactly when the inline
tools mapping is empty AND the structure manifest lists no tools entries;
in particular a pack with no inline tools but a non-empty `structure.tools`
manifest is, with respect to this rule, treated like a pack with inline
tools. -/
theorem no_tools_declared_iff (p : Pack) :
    noToolsError ∈ packErrors p ↔ p.tools = [] ∧ structureTools p = [] := by
  constructor
  · intro h
    by_cases hc : (p.tools.isEmpty && (structureTools p).isEmpty) = true
    · rw [Bool.and_eq_true] at hc
      exact ⟨List.isEmpty_iff.mp hc.1, List.isEmpty_iff.mp hc.2⟩
    · exfalso
      simp only [packErrors, List.mem_append] at h
      rcases h with (((h | h) | h) | h) | h
      · exact noTools_not_mem_metadata _ h
      · exact noTools_not_mem_connection _ h
      · simp only [toolsErrors, if_neg hc, List.nil_append] at h
        rcases List.mem_flatMap.mp h with ⟨nt, _, hmem⟩
        exact noTools_not_mem_toolEntry _ _ hmem
      · rcases List.mem_flatMap.mp h with ⟨np, _, hmem⟩
        exact noTools_not_mem_promptEntry _ _ hmem
      · rcases List.mem_flatMap.mp h with ⟨nr, _, hmem⟩
        exact noTools_not_mem_resourceEntry _ _ hmem
  · rintro ⟨h1, h2⟩
    have hmem : noToolsError ∈ toolsErrors p.tools (structureTools p) := by
      unfold toolsErrors
      rw [if_pos]
      · exact List.mem_append_left _ (List.mem_singleton.mpr rfl)
      · rw [Bool.and_eq_true]
        exact ⟨List.isEmpty_iff.mpr h1, List.isEmpty_iff.mpr h2⟩
    simp only [packErrors, List.mem_append]
    exact Or.inl (Or.inl (Or.inr hmem))

theorem no_tools_declared_iff_witness :
    noToolsError ∈ packErrors { samplePack with tools := [], struct := none } :=
  (no_tools_declared_iff { samplePack with tools := [], struct := none }).mpr
    ⟨rfl, rfl⟩

/-- C3: the entry points are total and normalize failures: a read or parse
failure of a file (including a nonexistent path) yields a report with
valid=false, error_count 1 and a single error starting with
"Failed to load pack:", and a structurally malformed in-memory tree yields
valid=false with a single error starting with "Failed to parse pack:". -/
theorem entry_points_never_raise (fs : String → Option (Except String Pack))
    (path : String) (r : RawPack) :
    ((fs path = none ∨ ∃ c, fs path = some (Except.error c)) →
      (validate_pack_yaml fs path).valid = false ∧
      (validate_pack_yaml fs path).error_count = 1 ∧
      ∃ e, (validate_pack_yaml fs path).errors = [e] ∧
        strStartsWith e "Failed to load pack:" = true) ∧
    ((∃ c, parsePack r = Except.error c) →
      (validate_pack_dict r).valid = false ∧
      (validate_pack_dict r).error_count = 1 ∧
      ∃ e, (validate_pack_dict r).errors = [e] ∧
        strStartsWith e "Failed to parse pack:" = true) := by
  constructor
  · intro h
    rcases h with h | ⟨c, h⟩ <;>
      · unfold validate_pack_yaml
        rw [h]
        exact ⟨rfl, rfl, _, rfl, startsWith_failed_load _⟩
  · rintro ⟨c, h⟩
    unfold validate_pack_dict
    rw [h]
    exact ⟨rfl, rfl, _, rfl, startsWith_failed_parse _⟩

theorem entry_points_never_raise_witness :
    (validate_pack_yaml (fun _ => none) "/nonexistent/pack.yaml").valid = false ∧
    (validate_pack_dict {}).valid = false :=
  ⟨((entry_points_never_raise (fun _ => none) "/nonexistent/pack.yaml" {}).1
      (Or.inl rfl)).1,
   ((entry_points_never_raise (fun _ => none) "/nonexistent/pack.yaml" {}).2
      ⟨_, rfl⟩).1⟩

/-- C4: re-running the validator on the same unchanged document — including
a second `validate_pack` call on the instance produced by the first — gives
the same result and identical errors/warnings lists, because every run
starts from an empty accumulator. -/
theorem revalidation_reproduces_results (v : PackValidator) (p : Pack) :
    (((v.validate_pack p).2.validate_pack p).1 = (v.validate_pack p).1) ∧
    ((v.validate_pack p).2.validate_pack p).2.errors =
      (v.validate_pack p).2.errors ∧
    ((v.validate_pack p).2.validate_pack p).2.warnings =
      (v.validate_pack p).2.warnings :=
  ⟨rfl, rfl, rfl⟩

/-- C5: removing the `type` field of any one tool of a pack that validates
as valid never flips the verdict to invalid (a missing tool type is
defaulted, not an error). -/
theorem removing_tool_type_preserves_validity (p : Pack) (i : Nat)
    (h : ((PackValidator.mk [] []).validate_pack p).1 = true) :
    ((PackValidator.mk [] []).validate_pack (removeToolTypeAt p i)).1 = true := by
  show (packErrors (removeToolTypeAt p i)).isEmpty = true
  rw [packErrors_removeToolTypeAt]
  exact h

theorem removing_tool_type_preserves_validity_witness :
    ((PackValidator.mk [] []).validate_pack (removeToolTypeAt samplePack 0)).1 = true :=
  removing_tool_type_preserves_validity samplePack 0 (by decide)

/-- C6: for an otherwise-valid pack, version "1.0" keeps the pack valid and
produces exactly one warning containing "semantic versioning", versions
"1.0.0" and "1.2.3" produce zero such warnings, and the version value never
affects the error list (hence never affects validity). -/
theorem version_format_is_advisory (p : Pack)
    (h : ((PackValidator.mk [] []).validate_pack p).1 = true) :
    (((PackValidator.mk [] []).validate_pack (setVersion p (some "1.0"))).1 = true ∧
      semverWarningCount (setVersion p (some "1.0")) = 1) ∧
    semverWarningCount (setVersion p (some "1.0.0")) = 0 ∧
    semverWarningCount (setVersion p (some "1.2.3")) = 0 ∧
    ∀ v, packErrors (setVersion p v) = packErrors p := by
  refine ⟨⟨?_, rfl⟩, rfl, rfl, fun v => packErrors_setVersion p v⟩
  show (packErrors (setVersion p (some "1.0"))).isEmpty = true
  rw [packErrors_setVersion]
  exact h

theorem version_format_is_advisory_witness :
    semverWarningCount (setVersion samplePack (some "1.0")) = 1 :=
  (version_format_is_advisory samplePack (by decide)).1.2

/-- C7: a discovered pack directory without a pack.yaml file is recorded
(at its position, under its name) with a valid=false report whose errors
contain "pack.yaml file not found", and the scan still produces one result
per discovered pack (no abort). -/
theorem missing_pack_yaml_forced (v : PackCollectionValidator) (i : Nat)
    (hi : i < v.packs.length)
    (h : (v.packs.get ⟨i, hi⟩).packYaml = none) :
    (validate_all_packs v).length = v.packs.length ∧
    ∃ hj : i < (validate_all_packs v).length,
      ((validate_all_packs v).get ⟨i, hj⟩).1 = (v.packs.get ⟨i, hi⟩).name ∧
      ((validate_all_packs v).get ⟨i, hj⟩).2.valid = false ∧
      "pack.yaml file not found" ∈ ((validate_all_packs v).get ⟨i, hj⟩).2.errors := by
  have hlen : (validate_all_packs v).length = v.packs.length :=
    List.length_map _ _
  refine ⟨hlen, ?_⟩
  have hj : i < (validate_all_packs v).length := by rw [hlen]; exact hi
  rw [List.get_eq_getElem] at h
  refine ⟨hj, ?_, ?_, ?_⟩ <;>
    simp [validate_all_packs, List.get_eq_getElem, List.getElem_map, h,
      missingPackYamlReport]

theorem missing_pack_yaml_forced_witness :
    (validate_all_packs collectionWithMissing).length =
      collectionWithMissing.packs.length ∧
    ∃ hj : 0 < (validate_all_packs collectionWithMissing).length,
      ((validate_all_packs collectionWithMissing).get ⟨0, hj⟩).1 =
        (collectionWithMissing.packs.get ⟨0, by decide⟩).name ∧
      ((validate_all_packs collectionWithMissing).get ⟨0, hj⟩).2.valid = false ∧
      "pack.yaml file not found" ∈
        ((validate_all_packs collectionWithMissing).get ⟨0, hj⟩).2.errors :=
  missing_pack_yaml_forced collectionWithMissing 0 (by decide) rfl

/-- C8: on a collection with zero packs, `validate_all_packs` returns the
empty mapping and `get_validation_summary` reports total_packs = 0 with the
guarded validation_rate reported as 0 (no division failure). -/
theorem empty_collection_summary (d : String) :
    validate_all_packs { base_dir := d, packs := [] } = [] ∧
    (get_validation_summary { base_dir := d, packs := [] }).total_packs = 0 ∧
    (get_validation_summary { base_dir := d, packs := [] }).validation_rate = 0 :=
  ⟨rfl, rfl, rfl⟩

/-- C9: `set_connection` with a truthy `type` (or `connection_type`)
replaces the connection dict wholesale with `{"type": t, **kwargs}` — so
any earlier configuration, including an `auth` section added by `set_auth`,
is discarded (third conjunct) — and with both arguments absent or falsy it
raises ValueError, leaving the builder unchanged (modelled as returning the
error without producing a new builder). -/
theorem set_connection_replaces_wholesale (b : PackBuilder)
    (type connection_type : Option String) (kwargs : PyDict) :
    (∀ s, pyOr type connection_type = some s → s.isEmpty = false →
      b.set_connection type connection_type kwargs =
        Except.ok { b with connection := ("type", PyVal.str s) :: kwargs }) ∧
    (strTruthy (pyOr type connection_type) = false →
      b.set_connection type connection_type kwargs =
        Except.error "Either 'type' or 'connection_type' must be specified") ∧
    (∀ method cfg,
      (b.set_auth method cfg).set_connection type connection_type kwargs =
        b.set_connection type connection_type kwargs) := by
  refine ⟨?_, ?_, ?_⟩
  · intro s hs hne
    simp [PackBuilder.set_connection, hs, strTruthy, hne]
  · intro hf
    simp [PackBuilder.set_connection, hf]
  · intro method cfg
    rfl

theorem set_connection_replaces_wholesale_witness :
    (PackBuilder.init "wf" "1.0.0").set_connection (some "rest") none
        [("base_url", PyVal.str "https://api.example.com")] =
      Except.ok { PackBuilder.init "wf" "1.0.0" with
        connection := [("type", PyVal.str "rest"),
                       ("base_url", PyVal.str "https://api.example.com")] } :=
  (set_connection_replaces_wholesale (PackBuilder.init "wf" "1.0.0")
    (some "rest") none _).1 "rest" rfl rfl

/-- C10: serializing a RAGConfiguration with `to_dict` and reading it back
with `from_dict` reconstructs the original value: enum fields survive the
string round trip, the nested QdrantConfig is rebuilt when present, and the
optional fields omitted when None come back as their None defaults. -/
theorem rag_config_roundtrip (c : RAGConfiguration) :
    RAGConfiguration.from_dict (RAGConfiguration.to_dict c) = some c := by
  cases c with
  | mk en prov qc sf ai cs co tk st ct mb al =>
      cases prov
      cases qc with
      | none => rfl
      | some q =>
          cases q with
          | mk qu qk cn cm cd eqz etz vs dm bs mr ts od => cases dm <;> rfl

end Catalyst
